import Mathlib

/-!
Shallow embedding of the credential / session lifecycle core of the
repository (src/auth): SQLAlchemy entities (`models.py`), security helpers
(`security.py`), and the FastAPI handler bodies (`src/auth/api.py`).
Machine-level collaborators are modelled as follows: Python `datetime`
values become wall-clock seconds paired with an optional UTC offset,
`python-jose` JWTs become an inductive of well-signed and malformed tokens
(signature validity is symbolic: a signed token verifies exactly under the
secret that produced it), `hashlib.sha256` is implemented bit-for-bit over
byte lists, and `passlib`'s digest check is a parameter while its
scheme-identification step (which decides the raised-vs-returned behaviour)
is concrete.
-/

namespace Auth

instance {ε α : Type} [DecidableEq ε] [DecidableEq α] : DecidableEq (Except ε α) :=
  fun x y =>
    match x, y with
    | .ok a, .ok b =>
      if h : a = b then .isTrue (by rw [h]) else .isFalse (by simp [h])
    | .error a, .error b =>
      if h : a = b then .isTrue (by rw [h]) else .isFalse (by simp [h])
    | .ok _, .error _ => .isFalse (by simp)
    | .error _, .ok _ => .isFalse (by simp)

/-! ### Python string primitives

List-of-characters models of the Python `str` methods the handlers use
(`lower`, `startswith`, `split()`); character-list recursion keeps them
directly computable. -/

/-- Python `str.lower()` (ASCII case mapping suffices here). -/
def strLower (s : String) : String :=
  String.mk (s.data.map Char.toLower)

def listPrefix : List Char → List Char → Bool
  | [], _ => true
  | _ :: _, [] => false
  | a :: as, b :: bs => a = b && listPrefix as bs

/-- Python `str.startswith(p)`. -/
def strStartsWith (s p : String) : Bool :=
  listPrefix p.data s.data

def splitWsAux : List Char → List Char → List String
  | [], cur => if cur.isEmpty then [] else [String.mk cur.reverse]
  | c :: cs, cur =>
    if c.isWhitespace then
      if cur.isEmpty then splitWsAux cs []
      else String.mk cur.reverse :: splitWsAux cs []
    else splitWsAux cs (c :: cur)

/-- Python `str.split()` with no argument: split on whitespace runs,
discarding empty fields. -/
def pySplitWs (s : String) : List String :=
  splitWsAux s.data []

/-! ### Python datetimes

A `datetime` is wall-clock seconds together with `tzinfo` as an optional
UTC offset in seconds (`none` = naive).  `datetime.now(dt.UTC)` is aware
with offset 0; `replace(tzinfo=dt.UTC)` keeps the wall clock and sets the
offset to 0; comparison of aware datetimes compares absolute instants. -/

structure PyDateTime where
  wall : Int
  tz : Option Int
deriving DecidableEq, Repr

/-- Absolute instant of an (aware) datetime: wall clock minus UTC offset. -/
def PyDateTime.instant (d : PyDateTime) : Int :=
  d.wall - d.tz.getD 0

/-- `if expires_at.tzinfo is None: expires_at = expires_at.replace(tzinfo=dt.UTC)` -/
def normalizeUTC (d : PyDateTime) : PyDateTime :=
  match d.tz with
  | none => { d with tz := some 0 }
  | some _ => d

/-- Python `<` on two aware datetimes. -/
def dtLt (a b : PyDateTime) : Bool :=
  a.instant < b.instant

/-- `dt.datetime.now(dt.UTC)` at absolute time `now`. -/
def nowUTC (now : Int) : PyDateTime :=
  ⟨now, some 0⟩

/-! ### Session tokens (security.py: JWT via python-jose)

`jwt.encode({"sub": sub, "exp": expire}, JWT_SECRET, algorithm="HS256")`
and `jwt.decode`.  A token string is modelled by its content: either a
well-formed HS256 token (subject, expiry, signing secret) or a malformed
string.  `jwt.decode` succeeds exactly on well-formed tokens signed with
the expected secret whose `exp` claim is not strictly in the past; every
failure (bad signature, expired, malformed) raises `JWTError`, which
`decode_access_token` catches and turns into `None`. -/

inductive JWToken where
  | signed (sub : String) (exp : Int) (secret : String)
  | malformed (raw : String)
deriving DecidableEq, Repr

/-- `JWT_EXPIRE_MINUTES = int(os.getenv("AUTH_JWT_EXPIRE_MINUTES", "60"))` — the default. -/
def JWT_EXPIRE_MINUTES_default : Int := 60

/-- `RESET_TOKEN_EXPIRE_MINUTES = int(os.getenv("AUTH_RESET_EXPIRE_MINUTES", "30"))` — the default. -/
def RESET_TOKEN_EXPIRE_MINUTES_default : Int := 30

/-- security.py `create_access_token`: expiry = now + JWT_EXPIRE_MINUTES minutes. -/
def create_access_token (secret : String) (expireMinutes : Int) (now : Int)
    (sub : String) : JWToken :=
  .signed sub (now + expireMinutes * 60) secret

/-- security.py `decode_access_token`: returns the subject, or `none` on any
`JWTError` (wrong secret, expired — jose treats `exp < now` as expired —
or malformed). -/
def decode_access_token (secret : String) (now : Int) (t : JWToken) : Option String :=
  match t with
  | .signed sub exp sec => if sec = secret ∧ ¬ exp < now then some sub else none
  | .malformed _ => none

/-- security.py `create_reset_expiry`: `dt.datetime.now(dt.UTC) + timedelta(minutes=RESET_TOKEN_EXPIRE_MINUTES)` (aware UTC). -/
def create_reset_expiry (resetMinutes : Int) (now : Int) : PyDateTime :=
  ⟨now + resetMinutes * 60, some 0⟩

/-! ### SHA-256 (hashlib), for `hash_api_key` -/

def w32 (n : Nat) : Nat := n % 4294967296

def rotr32 (x n : Nat) : Nat :=
  w32 ((x >>> n) ||| (x <<< (32 - n)))

def smallSigma0 (x : Nat) : Nat := rotr32 x 7 ^^^ rotr32 x 18 ^^^ (x >>> 3)

def smallSigma1 (x : Nat) : Nat := rotr32 x 17 ^^^ rotr32 x 19 ^^^ (x >>> 10)

def bigSigma0 (x : Nat) : Nat := rotr32 x 2 ^^^ rotr32 x 13 ^^^ rotr32 x 22

def bigSigma1 (x : Nat) : Nat := rotr32 x 6 ^^^ rotr32 x 11 ^^^ rotr32 x 25

def chFn (x y z : Nat) : Nat := (x &&& y) ^^^ (w32 (x ^^^ 4294967295) &&& z)

def majFn (x y z : Nat) : Nat := (x &&& y) ^^^ (x &&& z) ^^^ (y &&& z)

def sha256K : List Nat :=
  [1116352408, 1899447441, 3049323471, 3921009573, 961987163,
   1508970993, 2453635748, 2870763221, 3624381080, 310598401,
   607225278, 1426881987, 1925078388, 2162078206, 2614888103,
   3248222580, 3835390401, 4022224774, 264347078, 604807628,
   770255983, 1249150122, 1555081692, 1996064986, 2554220882,
   2821834349, 2952996808, 3210313671, 3336571891, 3584528711,
   113926993, 338241895, 666307205, 773529912, 1294757372,
   1396182291, 1695183700, 1986661051, 2177026350, 2456956037,
   2730485921, 2820302411, 3259730800, 3345764771, 3516065817,
   3600352804, 4094571909, 275423344, 430227734, 506948616,
   659060556, 883997877, 958139571, 1322822218, 1537002063,
   1747873779, 1955562222, 2024104815, 2227730452, 2361852424,
   2428436474, 2756734187, 3204031479, 3329325298]

def sha256H0 : List Nat :=
  [1779033703, 3144134277, 1013904242, 2773480762,
   1359893119, 2600822924, 528734635, 1541459225]

/-- `k` bytes of `n`, big-endian. -/
def bytesBE (k n : Nat) : List Nat :=
  (List.range k).reverse.map (fun i => (n >>> (8 * i)) % 256)

/-- SHA-256 padding: append 0x80, zero-pad to 56 mod 64, append the 64-bit
big-endian bit length. -/
def sha256Pad (msg : List Nat) : List Nat :=
  msg ++ (0x80 :: List.replicate ((119 - msg.length % 64) % 64) 0) ++
    bytesBE 8 (msg.length * 8)

/-- Group bytes into 32-bit big-endian words. -/
def toWords : List Nat → List Nat
  | a :: b :: c :: d :: rest => (((a * 256 + b) * 256 + c) * 256 + d) :: toWords rest
  | _ => []

/-- Message schedule: extend the 16 block words to 64. -/
def buildW (block : List Nat) : Array Nat :=
  (List.range 48).foldl
    (fun w _ =>
      let i := w.size
      w.push (w32 (smallSigma1 (w.getD (i - 2) 0) + w.getD (i - 7) 0 +
        smallSigma0 (w.getD (i - 15) 0) + w.getD (i - 16) 0)))
    block.toArray

/-- One SHA-256 compression round over the state `[a,b,c,d,e,f,g,h]`. -/
def sha256Round (w : Array Nat) (s : List Nat) (i : Nat) : List Nat :=
  match s with
  | [a, b, c, d, e, f, g, h] =>
    let t1 := w32 (h + bigSigma1 e + chFn e f g + sha256K.getD i 0 + w.getD i 0)
    let t2 := w32 (bigSigma0 a + majFn a b c)
    [w32 (t1 + t2), a, b, c, w32 (d + t1), e, f, g]
  | s => s

/-- Compress one 64-byte block into the running hash state. -/
def compressBlock (h : List Nat) (block : List Nat) : List Nat :=
  let w := buildW (toWords block)
  let s := (List.range 64).foldl (sha256Round w) h
  List.zipWith (fun x y => w32 (x + y)) h s

/-- Fold the padded message, 64 bytes at a time. -/
def sha256Blocks (h : List Nat) (bytes : List Nat) : List Nat :=
  match bytes with
  | [] => h
  | b :: rest => sha256Blocks (compressBlock h ((b :: rest).take 64)) (rest.drop 63)
termination_by bytes.length
decreasing_by simp [List.length_drop]; omega

/-- SHA-256 digest (32 bytes) of a byte list. -/
def sha256 (msg : List Nat) : List Nat :=
  (sha256Blocks sha256H0 (sha256Pad msg)).foldr (fun wd acc => bytesBE 4 wd ++ acc) []

def hexDigit (n : Nat) : Char :=
  "0123456789abcdef".toList.getD n '0'

/-- Lowercase hex encoding of a byte list (`hexdigest`). -/
def hexdigest (bytes : List Nat) : String :=
  String.mk (bytes.foldr (fun b acc => hexDigit (b / 16) :: hexDigit (b % 16) :: acc) [])

def utf8Bytes (s : String) : List Nat :=
  s.toUTF8.toList.map (fun b => b.toNat)

/-- security.py `hash_api_key`: `hashlib.sha256(raw_key.encode("utf-8")).hexdigest()`. -/
def hash_api_key (raw_key : String) : String :=
  hexdigest (sha256 (utf8Bytes raw_key))

/-! ### passlib password verification (security.py)

`pwd_context = CryptContext(schemes=["pbkdf2_sha256"])`.
`CryptContext.verify(secret, hash)` first identifies the hash by its MCF
ident prefix `$pbkdf2-sha256$`; a hash no configured scheme identifies
raises `UnknownHashError` (it is NOT caught in `verify_password`).  An
identified hash is handed to the scheme handler, whose digest comparison
we keep as a parameter `checkDigest` (it may itself raise `ValueError` on
a hash with the right ident but bad structure). -/

inductive PasslibErr where
  | unknownHash
  | valueError
deriving DecidableEq, Repr

def pbkdf2Sha256Ident : String := "$pbkdf2-sha256$"

/-- passlib scheme identification for the one configured scheme. -/
def passlibIdentify (hashed : String) : Bool :=
  strStartsWith hashed pbkdf2Sha256Ident

/-- security.py `verify_password`: `return pwd_context.verify(password, hashed)`
with no exception handling. -/
def verify_password (checkDigest : String → String → Except PasslibErr Bool)
    (password hashed : String) : Except PasslibErr Bool :=
  if passlibIdentify hashed then checkDigest password hashed
  else .error .unknownHash

/-! ### Entities (models.py) -/

/-- models.py `User` (is_active defaults true; created_at defaults now). -/
structure User where
  id : Nat
  name : String
  email : String
  address : String
  username : String
  password_hash : String
  is_active : Bool
  created_at : Int
deriving DecidableEq, Repr

/-- models.py `APIKey` (revoked defaults false). -/
structure APIKey where
  id : Nat
  key_hash : String
  user_id : Nat
  created_at : Int
  revoked : Bool
deriving DecidableEq, Repr

/-- models.py `PasswordResetToken` (used defaults false). -/
structure PasswordResetToken where
  id : Nat
  token : String
  user_id : Nat
  expires_at : PyDateTime
  used : Bool
  created_at : Int
deriving DecidableEq, Repr

/-- The relational store: the three tables plus the autoincrement
counters the store assigns primary keys from. -/
structure DB where
  users : List User
  api_keys : List APIKey
  reset_tokens : List PasswordResetToken
  next_user_id : Nat
  next_key_id : Nat
  next_reset_id : Nat
deriving DecidableEq, Repr

/-! ### Request / response models (api.py pydantic classes) -/

/-- api.py `UserCreate` (field constraints checked by `validUserCreate`). -/
structure UserCreate where
  name : String
  email : String
  address : String
  username : String
  password : String
deriving DecidableEq, Repr

/-- api.py `UserOut` — the public profile; no password hash, no is_active. -/
structure UserOut where
  id : Nat
  name : String
  email : String
  address : String
  username : String
deriving DecidableEq, Repr

structure LoginRequest where
  username : String
  password : String
deriving DecidableEq, Repr

structure LoginResponse where
  access_token : JWToken
  token_type : String
  user : UserOut
  api_keys : List String
deriving DecidableEq, Repr

/-- api.py `APIKeyOut` — id, creation timestamp and revoked flag only. -/
structure APIKeyOut where
  id : Nat
  created_at : Int
  revoked : Bool
deriving DecidableEq, Repr

structure APIKeyCreateResponse where
  id : Nat
  raw_key : String
deriving DecidableEq, Repr

structure PasswordResetRequest where
  email : String
deriving DecidableEq, Repr

structure PasswordResetConfirm where
  token : String
  new_password : String
deriving DecidableEq, Repr

structure Message where
  message : String
deriving DecidableEq, Repr

/-- Outcomes surfaced by a handler: an `HTTPException` with status code and
detail, a pydantic request-validation failure (HTTP 422, rejected before
the handler body runs), or an exception escaping the handler (HTTP 500):
`indexError` for the `authorization.split()[1]` IndexError, `passlibError`
for an uncaught passlib error from `verify_password`. -/
inductive ApiErr where
  | http (code : Nat) (detail : String)
  | validation
  | indexError
  | passlibError
deriving DecidableEq, Repr

def toUserOut (u : User) : UserOut :=
  ⟨u.id, u.name, u.email, u.address, u.username⟩

def toAPIKeyOut (k : APIKey) : APIKeyOut :=
  ⟨k.id, k.created_at, k.revoked⟩

/-- pydantic validation of `UserCreate`: `EmailStr` (the validator itself is
the external `email-validator` package, kept as the parameter `emailOk`),
`username: Field(min_length=3, max_length=50)`, `password: Field(min_length=8)`. -/
def validUserCreate (emailOk : String → Bool) (u : UserCreate) : Bool :=
  emailOk u.email && decide (3 ≤ u.username.length) &&
    decide (u.username.length ≤ 50) && decide (8 ≤ u.password.length)

/-- pydantic validation of `PasswordResetConfirm`: `new_password: Field(min_length=8)`. -/
def validPasswordResetConfirm (r : PasswordResetConfirm) : Bool :=
  decide (8 ≤ r.new_password.length)

/-! ### Handlers (api.py)

Each handler takes the store and returns its outcome; mutating handlers
return the store as well — unchanged on every failure path, since an
`HTTPException` raised before `db.commit()` discards the session's
uncommitted mutations.  Values the source obtains from collaborators
(current time, `secrets`-generated raw keys and token values, the JWT
wire format `parse`) are explicit arguments. -/

/-- api.py `get_current_user`: Authorization-header gate, JWT decode,
subject lookup.  `parse` maps the extracted header token substring to the
JWT it denotes.  A header that passes the `"bearer "` prefix test but has
no second whitespace-separated part makes `authorization.split()[1]` raise
`IndexError` (modelled as `.indexError`). -/
def get_current_user (secret : String) (now : Int) (parse : String → JWToken)
    (db : DB) (authorization : Option String) : Except ApiErr User :=
  match authorization with
  | none => .error (.http 401 "Not authenticated")
  | some a =>
    if a = "" || ! strStartsWith (strLower a) ("bearer ") then
      .error (.http 401 "Not authenticated")
    else
      match (pySplitWs a)[1]? with
      | none => .error .indexError
      | some tokenStr =>
        match decode_access_token secret now (parse tokenStr) with
        | none => .error (.http 401 "Invalid token")
        | some username =>
          match db.users.find? (fun u => u.username = username) with
          | none => .error (.http 401 "User not found")
          | some user => .ok user

/-- api.py `register`. -/
def register (emailOk : String → Bool) (hashPassword : String → String)
    (now : Int) (db : DB) (user_in : UserCreate) : Except ApiErr UserOut × DB :=
  if ! validUserCreate emailOk user_in then (.error .validation, db)
  else if (db.users.find? (fun u =>
      u.username = user_in.username || u.email = user_in.email)).isSome then
    (.error (.http 400 "Username or email already exists"), db)
  else
    let u : User := ⟨db.next_user_id, user_in.name, user_in.email, user_in.address,
      user_in.username, hashPassword user_in.password, true, now⟩
    (.ok (toUserOut u), { db with users := db.users ++ [u],
                                  next_user_id := db.next_user_id + 1 })

/-- api.py `login`.  A passlib error from `verify_password` is uncaught. -/
def login (checkDigest : String → String → Except PasslibErr Bool)
    (secret : String) (expireMinutes : Int) (now : Int)
    (db : DB) (req : LoginRequest) : Except ApiErr LoginResponse × DB :=
  match db.users.find? (fun u => u.username = req.username) with
  | none => (.error (.http 400 "Invalid credentials"), db)
  | some user =>
    match verify_password checkDigest req.password user.password_hash with
    | .error _ => (.error .passlibError, db)
    | .ok ok =>
      if ! ok then (.error (.http 400 "Invalid credentials"), db)
      else
        let token := create_access_token secret expireMinutes now user.username
        let key_ids := (db.api_keys.filter (fun k =>
          k.user_id = user.id && ! k.revoked)).map (fun k => toString k.id)
        (.ok ⟨token, "bearer", toUserOut user, key_ids⟩, db)

/-- api.py `me`. -/
def me (secret : String) (now : Int) (parse : String → JWToken)
    (db : DB) (authorization : Option String) : Except ApiErr UserOut :=
  (get_current_user secret now parse db authorization).map toUserOut

/-- api.py `create_apikey` (raw key generation by `secrets` is the
explicit argument `raw_key`). -/
def create_apikey (secret : String) (now : Int) (parse : String → JWToken)
    (raw_key : String) (db : DB) (authorization : Option String) :
    Except ApiErr APIKeyCreateResponse × DB :=
  match get_current_user secret now parse db authorization with
  | .error e => (.error e, db)
  | .ok user =>
    let hashed := hash_api_key raw_key
    let api_key : APIKey := ⟨db.next_key_id, hashed, user.id, now, false⟩
    (.ok ⟨api_key.id, raw_key⟩,
     { db with api_keys := db.api_keys ++ [api_key],
               next_key_id := db.next_key_id + 1 })

/-- api.py `list_apikeys`. -/
def list_apikeys (secret : String) (now : Int) (parse : String → JWToken)
    (db : DB) (authorization : Option String) : Except ApiErr (List APIKeyOut) :=
  (get_current_user secret now parse db authorization).map (fun user =>
    (db.api_keys.filter (fun k => k.user_id = user.id)).map toAPIKeyOut)

/-- ORM object mutation `key.revoked = True` on the first row matching the
query `APIKey.id == key_id, APIKey.user_id == user_id`. -/
def setRevokedFirst (keys : List APIKey) (key_id user_id : Nat) : List APIKey :=
  match keys with
  | [] => []
  | k :: rest =>
    if k.id = key_id && k.user_id = user_id then { k with revoked := true } :: rest
    else k :: setRevokedFirst rest key_id user_id

/-- api.py `revoke_apikey`. -/
def revoke_apikey (secret : String) (now : Int) (parse : String → JWToken)
    (key_id : Nat) (db : DB) (authorization : Option String) :
    Except ApiErr Message × DB :=
  match get_current_user secret now parse db authorization with
  | .error e => (.error e, db)
  | .ok user =>
    match db.api_keys.find? (fun k => k.id = key_id && k.user_id = user.id) with
    | none => (.error (.http 404 "API key not found"), db)
    | some _ =>
      (.ok ⟨"API key revoked"⟩,
       { db with api_keys := setRevokedFirst db.api_keys key_id user.id })

/-- api.py `request_reset` (token generation by `secrets` is the explicit
argument `token_value`; `send_reset_email` is fire-and-forget console
output and contributes nothing to outcome or store). -/
def request_reset (emailOk : String → Bool) (token_value : String)
    (resetMinutes : Int) (now : Int) (db : DB) (req : PasswordResetRequest) :
    Except ApiErr Message × DB :=
  if ! emailOk req.email then (.error .validation, db)
  else
    match db.users.find? (fun u => u.email = req.email) with
    | none => (.ok ⟨"If the email exists a reset link was sent"⟩, db)
    | some user =>
      let reset_token : PasswordResetToken :=
        ⟨db.next_reset_id, token_value, user.id,
         create_reset_expiry resetMinutes now, false, now⟩
      (.ok ⟨"If the email exists a reset link was sent"⟩,
       { db with reset_tokens := db.reset_tokens ++ [reset_token],
                 next_reset_id := db.next_reset_id + 1 })

/-- ORM object mutation `user.password_hash = ...` on the first row
matching `User.id == user_id`. -/
def setPasswordFirst (users : List User) (user_id : Nat) (h : String) : List User :=
  match users with
  | [] => []
  | u :: rest =>
    if u.id = user_id then { u with password_hash := h } :: rest
    else u :: setPasswordFirst rest user_id h

/-- ORM object mutation `token.used = True` on the first row matching
`PasswordResetToken.token == token_value`. -/
def setUsedFirst (tokens : List PasswordResetToken) (token_value : String) :
    List PasswordResetToken :=
  match tokens with
  | [] => []
  | t :: rest =>
    if t.token = token_value then { t with used := true } :: rest
    else t :: setUsedFirst rest token_value

/-- api.py `confirm_reset`: lookup by token value; normalize a naive stored
expiry to UTC; the single gate `token.used or expires_at < now_utc`; then
defensive user lookup; then the atomic password-hash + used-flag commit. -/
def confirm_reset (hashPassword : String → String) (now : Int)
    (db : DB) (req : PasswordResetConfirm) : Except ApiErr Message × DB :=
  if ! validPasswordResetConfirm req then (.error .validation, db)
  else
    match db.reset_tokens.find? (fun t => t.token = req.token) with
    | none => (.error (.http 400 "Invalid or expired token"), db)
    | some token =>
      let expires_at := normalizeUTC token.expires_at
      if token.used || dtLt expires_at (nowUTC now) then
        (.error (.http 400 "Invalid or expired token"), db)
      else
        match db.users.find? (fun u => u.id = token.user_id) with
        | none => (.error (.http 400 "User not found"), db)
        | some _ =>
          (.ok ⟨"Password reset successful"⟩,
           { db with users := setPasswordFirst db.users token.user_id
                       (hashPassword req.new_password),
                     reset_tokens := setUsedFirst db.reset_tokens req.token })

/-! ### Helper lemmas -/

/-- A naive timestamp, once reinterpreted as UTC, is aware; normalizing
again changes nothing. -/
theorem normalizeUTC_idem (d : PyDateTime) :
    normalizeUTC (normalizeUTC d) = normalizeUTC d := by
  obtain ⟨wall, tz⟩ := d
  cases tz <;> rfl

/-- `find?` commutes with mapping a function the predicate ignores. -/
theorem find?_map_comm {α : Type} (f : α → α) (p : α → Bool)
    (hf : ∀ x, p (f x) = p x) (l : List α) :
    (l.map f).find? p = (l.find? p).map f := by
  induction l with
  | nil => rfl
  | cons x xs ih =>
    by_cases h : p x = true
    · simp [List.find?_cons_of_pos, h, hf]
    · have h2 : p (f x) = false := by rw [hf]; exact Bool.not_eq_true _ ▸ eq_false_of_ne_true h
      simp [List.find?_cons_of_neg, h, h2, ih]

/-- Reinterpret each stored reset-token expiry as aware UTC. -/
def normTok (t : PasswordResetToken) : PasswordResetToken :=
  { t with expires_at := normalizeUTC t.expires_at }

/-- The store with every reset-token expiry reinterpreted as aware UTC. -/
def normResetTokens (db : DB) : DB :=
  { db with reset_tokens := db.reset_tokens.map normTok }

theorem setPasswordFirst_find? (l : List User) (uid : Nat) (h : String) (u : User)
    (hf : l.find? (fun x => x.id = uid) = some u) :
    (setPasswordFirst l uid h).find? (fun x => x.id = uid) =
      some { u with password_hash := h } := by
  induction l with
  | nil => simp at hf
  | cons x xs ih =>
    by_cases hx : x.id = uid
    · rw [List.find?_cons_of_pos _ (by simp [hx])] at hf
      cases hf
      simp [setPasswordFirst, hx, List.find?_cons_of_pos]
    · rw [List.find?_cons_of_neg _ (by simp [hx])] at hf
      simp only [setPasswordFirst, if_neg hx]
      rw [List.find?_cons_of_neg _ (by simp [hx])]
      exact ih hf

theorem setUsedFirst_find? (l : List PasswordResetToken) (v : String)
    (t : PasswordResetToken)
    (hf : l.find? (fun x => x.token = v) = some t) :
    (setUsedFirst l v).find? (fun x => x.token = v) =
      some { t with used := true } := by
  induction l with
  | nil => simp at hf
  | cons x xs ih =>
    by_cases hx : x.token = v
    · rw [List.find?_cons_of_pos _ (by simp [hx])] at hf
      cases hf
      simp [setUsedFirst, hx, List.find?_cons_of_pos]
    · rw [List.find?_cons_of_neg _ (by simp [hx])] at hf
      simp only [setUsedFirst, if_neg hx]
      rw [List.find?_cons_of_neg _ (by simp [hx])]
      exact ih hf

theorem setRevokedFirst_find? (l : List APIKey) (kid uid : Nat) (k : APIKey)
    (hf : l.find? (fun x => x.id = kid && x.user_id = uid) = some k) :
    (setRevokedFirst l kid uid).find? (fun x => x.id = kid && x.user_id = uid) =
      some { k with revoked := true } := by
  induction l with
  | nil => simp at hf
  | cons x xs ih =>
    by_cases hx : (x.id = kid && x.user_id = uid) = true
    · rw [@List.find?_cons_of_pos APIKey
        (fun y => y.id = kid && y.user_id = uid) x xs hx] at hf
      injection hf with hk
      subst hk
      simp only [setRevokedFirst, if_pos hx]
      exact @List.find?_cons_of_pos APIKey
        (fun y => y.id = kid && y.user_id = uid)
        { x with revoked := true } xs (by simpa using hx)
    · rw [@List.find?_cons_of_neg APIKey
        (fun y => y.id = kid && y.user_id = uid) x xs hx] at hf
      simp only [setRevokedFirst, if_neg hx]
      rw [@List.find?_cons_of_neg APIKey
        (fun y => y.id = kid && y.user_id = uid) x
        (setRevokedFirst xs kid uid) hx]
      exact ih hf

theorem setRevokedFirst_idem (l : List APIKey) (kid uid : Nat) :
    setRevokedFirst (setRevokedFirst l kid uid) kid uid =
      setRevokedFirst l kid uid := by
  induction l with
  | nil => rfl
  | cons x xs ih =>
    by_cases hx : (x.id = kid && x.user_id = uid) = true
    · simp only [setRevokedFirst, if_pos hx]
    · simp only [setRevokedFirst, if_neg hx, ih]

/-- `get_current_user` only reads the user table. -/
theorem get_current_user_congr_users (secret : String) (now : Int)
    (parse : String → JWToken) (db db2 : DB) (a : Option String)
    (h : db.users = db2.users) :
    get_current_user secret now parse db a =
      get_current_user secret now parse db2 a := by
  unfold get_current_user
  rw [h]

/-- Positionally, a key revoked in the old key table is still revoked in
the new one. -/
def revokedMonotone (old new : List APIKey) : Prop :=
  ∀ i k k', old.get? i = some k → new.get? i = some k' →
    k.revoked = true → k'.revoked = true

theorem revokedMonotone_refl (l : List APIKey) : revokedMonotone l l := by
  intro i k k' h1 h2 h3
  rw [h1] at h2
  cases h2
  exact h3

theorem revokedMonotone_append (l l2 : List APIKey) :
    revokedMonotone l (l ++ l2) := by
  intro i k k' h1 h2 h3
  have hi : i < l.length := by
    rcases List.get?_eq_some.mp h1 with ⟨h, _⟩
    exact h
  rw [List.get?_append hi, h1] at h2
  cases h2
  exact h3

theorem revokedMonotone_setRevokedFirst (l : List APIKey) (kid uid : Nat) :
    revokedMonotone l (setRevokedFirst l kid uid) := by
  induction l with
  | nil =>
    intro i k k' h1 _ _
    simp at h1
  | cons x xs ih =>
    intro i k k' h1 h2 h3
    by_cases hx : (x.id = kid && x.user_id = uid) = true
    · simp only [setRevokedFirst, if_pos hx] at h2
      cases i with
      | zero =>
        rw [List.get?_cons_zero] at h1 h2
        cases h1
        cases h2
        rfl
      | succ n =>
        rw [List.get?_cons_succ] at h1 h2
        rw [h1] at h2
        cases h2
        exact h3
    · simp only [setRevokedFirst, if_neg hx] at h2
      cases i with
      | zero =>
        rw [List.get?_cons_zero] at h1 h2
        cases h1
        cases h2
        exact h3
      | succ n =>
        rw [List.get?_cons_succ] at h1 h2
        exact ih n k k' h1 h2 h3

theorem register_apikeys (emailOk : String → Bool) (hp : String → String)
    (now : Int) (db : DB) (inp : UserCreate) :
    (register emailOk hp now db inp).2.api_keys = db.api_keys := by
  unfold register
  split
  · rfl
  · split
    · rfl
    · rfl

theorem login_state (cd : String → String → Except PasslibErr Bool)
    (secret : String) (em now : Int) (db : DB) (req : LoginRequest) :
    (login cd secret em now db req).2 = db := by
  unfold login
  split
  · rfl
  · split
    · rfl
    · split
      · rfl
      · rfl

theorem request_reset_apikeys (emailOk : String → Bool) (tv : String)
    (rm now : Int) (db : DB) (req : PasswordResetRequest) :
    (request_reset emailOk tv rm now db req).2.api_keys = db.api_keys := by
  unfold request_reset
  split
  · rfl
  · split
    · rfl
    · rfl

theorem confirm_reset_apikeys (hp : String → String) (now : Int) (db : DB)
    (req : PasswordResetConfirm) :
    (confirm_reset hp now db req).2.api_keys = db.api_keys := by
  by_cases hval : (! validPasswordResetConfirm req) = true
  · simp [confirm_reset, hval]
  · have hv2 : (! validPasswordResetConfirm req) = false := by simpa using hval
    cases hfind : db.reset_tokens.find? (fun t => t.token = req.token) with
    | none => simp [confirm_reset, hv2, hfind]
    | some t =>
      by_cases hg : (t.used || dtLt (normalizeUTC t.expires_at) (nowUTC now)) = true
      · simp [confirm_reset, hv2, hfind, hg]
      · cases huser : db.users.find? (fun u => u.id = t.user_id) with
        | none => simp [confirm_reset, hv2, hfind, hg, huser]
        | some u => simp [confirm_reset, hv2, hfind, hg, huser]

/-- Every failing branch of confirm-reset leaves the store untouched (an
`HTTPException` is raised before any mutation reaches `db.commit()`). -/
theorem confirm_reset_error_unchanged (hashPassword : String → String)
    (now : Int) (db : DB) (req : PasswordResetConfirm) (e : ApiErr)
    (h : (confirm_reset hashPassword now db req).1 = .error e) :
    (confirm_reset hashPassword now db req).2 = db := by
  unfold confirm_reset at *
  by_cases hval : (! validPasswordResetConfirm req) = true
  · simp [hval]
  · simp only [hval] at h ⊢
    simp only [Bool.not_eq_true] at hval
    cases hfind : db.reset_tokens.find? (fun t => t.token = req.token) with
    | none => simp [hval, hfind]
    | some t =>
      by_cases hg : (t.used || dtLt (normalizeUTC t.expires_at) (nowUTC now)) = true
      · simp [hval, hfind, hg]
      · cases huser : db.users.find? (fun u => u.id = t.user_id) with
        | none => simp [hval, hfind, hg, huser]
        | some u => simp [hval, hfind, hg, huser] at h

/-! ### The is_active flag (C9 machinery)

`setUserActive uid b` rewrites one user's `is_active` flag; `setActive`
lifts it to the store.  Every handler commutes with it, which is exactly
"no operation reads `is_active`". -/

def setUserActive (uid : Nat) (b : Bool) (u : User) : User :=
  if u.id = uid then { u with is_active := b } else u

def setActive (db : DB) (uid : Nat) (b : Bool) : DB :=
  { db with users := db.users.map (setUserActive uid b) }

theorem setUserActive_id (uid : Nat) (b : Bool) (u : User) :
    (setUserActive uid b u).id = u.id := by
  unfold setUserActive
  split <;> rfl

theorem setUserActive_username (uid : Nat) (b : Bool) (u : User) :
    (setUserActive uid b u).username = u.username := by
  unfold setUserActive
  split <;> rfl

theorem setUserActive_email (uid : Nat) (b : Bool) (u : User) :
    (setUserActive uid b u).email = u.email := by
  unfold setUserActive
  split <;> rfl

theorem setUserActive_password_hash (uid : Nat) (b : Bool) (u : User) :
    (setUserActive uid b u).password_hash = u.password_hash := by
  unfold setUserActive
  split <;> rfl

theorem toUserOut_setUserActive (uid : Nat) (b : Bool) (u : User) :
    toUserOut (setUserActive uid b u) = toUserOut u := by
  unfold setUserActive toUserOut
  split <;> rfl

theorem setUserActive_password (uid : Nat) (b : Bool) (h : String) (u : User) :
    setUserActive uid b { u with password_hash := h } =
      { setUserActive uid b u with password_hash := h } := by
  unfold setUserActive
  by_cases hid : u.id = uid
  · simp [hid]
  · simp [hid]

theorem setPasswordFirst_map (uid : Nat) (b : Bool) (tid : Nat) (h : String)
    (l : List User) :
    setPasswordFirst (l.map (setUserActive uid b)) tid h =
      (setPasswordFirst l tid h).map (setUserActive uid b) := by
  induction l with
  | nil => rfl
  | cons x xs ih =>
    by_cases hx : x.id = tid
    · simp only [List.map_cons, setPasswordFirst, setUserActive_id, if_pos hx,
        setUserActive_password]
    · simp only [List.map_cons, setPasswordFirst, setUserActive_id, if_neg hx, ih]

theorem get_current_user_setActive (secret : String) (now : Int)
    (parse : String → JWToken) (db : DB) (uid : Nat) (b : Bool)
    (a : Option String) :
    get_current_user secret now parse (setActive db uid b) a =
      (get_current_user secret now parse db a).map (setUserActive uid b) := by
  unfold get_current_user
  cases a with
  | none => rfl
  | some s =>
    by_cases hg : (s = "" || ! strStartsWith (strLower s) ("bearer ")) = true
    · simp [hg, Except.map]
    · simp only [hg, Bool.false_eq_true, if_false]
      cases h1 : (pySplitWs s)[1]? with
      | none => simp [h1, Except.map]
      | some tk =>
        cases h2 : decode_access_token secret now (parse tk) with
        | none => simp [h1, h2, Except.map]
        | some un =>
          have hfind := find?_map_comm (setUserActive uid b)
            (fun u => decide (u.username = un))
            (fun u => by simp [setUserActive_username]) db.users
          cases h3 : db.users.find? (fun u => u.username = un) with
          | none =>
            rw [h3] at hfind
            simp [h1, h2, setActive, hfind, h3, Except.map]
          | some u =>
            rw [h3] at hfind
            simp [h1, h2, setActive, hfind, h3, Except.map]

theorem me_setActive (secret : String) (now : Int) (parse : String → JWToken)
    (db : DB) (uid : Nat) (b : Bool) (a : Option String) :
    me secret now parse (setActive db uid b) a = me secret now parse db a := by
  unfold me
  rw [get_current_user_setActive]
  cases get_current_user secret now parse db a with
  | error e => rfl
  | ok u => simp [Except.map, toUserOut_setUserActive]

theorem login_setActive (cd : String → String → Except PasslibErr Bool)
    (secret : String) (em now : Int) (db : DB) (uid : Nat) (b : Bool)
    (req : LoginRequest) :
    login cd secret em now (setActive db uid b) req =
      ((login cd secret em now db req).1, setActive db uid b) := by
  have hfind := find?_map_comm (setUserActive uid b)
    (fun u => decide (u.username = req.username))
    (fun u => by simp [setUserActive_username]) db.users
  unfold login
  cases h3 : db.users.find? (fun u => u.username = req.username) with
  | none =>
    rw [h3] at hfind
    simp [setActive, hfind]
  | some u =>
    rw [h3] at hfind
    cases h4 : verify_password cd req.password u.password_hash with
    | error e =>
      simp [setActive, hfind, setUserActive_password_hash, h4]
    | ok ok =>
      cases ok with
      | false => simp [setActive, hfind, setUserActive_password_hash, h4]
      | true =>
        simp [setActive, hfind, setUserActive_password_hash, h4,
          setUserActive_username, setUserActive_id, toUserOut_setUserActive]

theorem create_apikey_setActive (secret : String) (now : Int)
    (parse : String → JWToken) (raw : String) (db : DB) (uid : Nat) (b : Bool)
    (a : Option String) :
    create_apikey secret now parse raw (setActive db uid b) a =
      ((create_apikey secret now parse raw db a).1,
       setActive (create_apikey secret now parse raw db a).2 uid b) := by
  unfold create_apikey
  rw [get_current_user_setActive]
  cases h : get_current_user secret now parse db a with
  | error e => simp [Except.map, setActive]
  | ok u => simp [Except.map, setActive, setUserActive_id]

theorem list_apikeys_setActive (secret : String) (now : Int)
    (parse : String → JWToken) (db : DB) (uid : Nat) (b : Bool)
    (a : Option String) :
    list_apikeys secret now parse (setActive db uid b) a =
      list_apikeys secret now parse db a := by
  unfold list_apikeys
  rw [get_current_user_setActive]
  cases h : get_current_user secret now parse db a with
  | error e => rfl
  | ok u => simp [Except.map, setActive, setUserActive_id]

theorem revoke_apikey_setActive (secret : String) (now : Int)
    (parse : String → JWToken) (key_id : Nat) (db : DB) (uid : Nat) (b : Bool)
    (a : Option String) :
    revoke_apikey secret now parse key_id (setActive db uid b) a =
      ((revoke_apikey secret now parse key_id db a).1,
       setActive (revoke_apikey secret now parse key_id db a).2 uid b) := by
  unfold revoke_apikey
  rw [get_current_user_setActive]
  cases h : get_current_user secret now parse db a with
  | error e => simp [Except.map, setActive]
  | ok u =>
    simp only [Except.map, setUserActive_id]
    cases hf : db.api_keys.find? (fun k => k.id = key_id && k.user_id = u.id) with
    | none => simp [setActive, hf]
    | some k => simp [setActive, hf]

theorem register_setActive_out (emailOk : String → Bool)
    (hp : String → String) (now : Int) (db : DB) (uid : Nat) (b : Bool)
    (inp : UserCreate) :
    (register emailOk hp now (setActive db uid b) inp).1 =
      (register emailOk hp now db inp).1 := by
  unfold register
  by_cases hv : (! validUserCreate emailOk inp) = true
  · simp [hv]
  · have hfind := find?_map_comm (setUserActive uid b)
      (fun u => decide (u.username = inp.username) || decide (u.email = inp.email))
      (fun u => by simp [setUserActive_username, setUserActive_email]) db.users
    cases h3 : db.users.find?
        (fun u => u.username = inp.username || u.email = inp.email) with
    | none =>
      rw [h3] at hfind
      simp [hv, setActive, hfind, h3]
    | some u =>
      rw [h3] at hfind
      simp [hv, setActive, hfind, h3]

theorem request_reset_setActive (emailOk : String → Bool) (tv : String)
    (rm now : Int) (db : DB) (uid : Nat) (b : Bool) (rreq : PasswordResetRequest) :
    request_reset emailOk tv rm now (setActive db uid b) rreq =
      ((request_reset emailOk tv rm now db rreq).1,
       setActive (request_reset emailOk tv rm now db rreq).2 uid b) := by
  unfold request_reset
  by_cases hv : (! emailOk rreq.email) = true
  · simp [hv, setActive]
  · have hfind := find?_map_comm (setUserActive uid b)
      (fun u => decide (u.email = rreq.email))
      (fun u => by simp [setUserActive_email]) db.users
    cases h3 : db.users.find? (fun u => u.email = rreq.email) with
    | none =>
      rw [h3] at hfind
      simp [hv, setActive, hfind]
    | some u =>
      rw [h3] at hfind
      simp [hv, setActive, hfind, setUserActive_id]

theorem confirm_reset_setActive (hp : String → String) (now : Int) (db : DB)
    (uid : Nat) (b : Bool) (creq : PasswordResetConfirm) :
    confirm_reset hp now (setActive db uid b) creq =
      ((confirm_reset hp now db creq).1,
       setActive (confirm_reset hp now db creq).2 uid b) := by
  unfold confirm_reset
  by_cases hv : (! validPasswordResetConfirm creq) = true
  · simp [hv, setActive]
  · cases hfind : db.reset_tokens.find? (fun t => t.token = creq.token) with
    | none => simp [hv, setActive, hfind]
    | some t =>
      by_cases hg : (t.used || dtLt (normalizeUTC t.expires_at) (nowUTC now)) = true
      · simp [hv, setActive, hfind, hg]
      · have hufind := find?_map_comm (setUserActive uid b)
          (fun u => decide (u.id = t.user_id))
          (fun u => by simp [setUserActive_id]) db.users
        cases h3 : db.users.find? (fun u => u.id = t.user_id) with
        | none =>
          rw [h3] at hufind
          simp [hv, setActive, hfind, hg, hufind, h3]
        | some u =>
          rw [h3] at hufind
          simp [hv, setActive, hfind, hg, hufind, h3, setUserActive_id,
            setPasswordFirst_map]

/-! ### Witness fixtures -/

/-- A concrete stored user (hash in passlib pbkdf2_sha256 MCF form). -/
def wAlice : User :=
  ⟨1, "Alice", "a@x.com", "1 Way", "alice", "$pbkdf2-sha256$H", true, 0⟩

/-- A concrete store holding `wAlice`. -/
def wDB : DB := ⟨[wAlice], [], [], 2, 1, 1⟩

/-- A concrete unused reset token for `wAlice` whose stored expiry is a
naive timestamp (instant 50 once read as UTC). -/
def wToken : PasswordResetToken := ⟨1, "T", 1, ⟨50, none⟩, false, 0⟩

/-- A concrete store holding `wAlice` and `wToken`. -/
def wDBr : DB := ⟨[wAlice], [], [wToken], 2, 1, 2⟩

/-- A concrete JWT wire format: the one string `"tok"` denotes a token for
subject alice signed with secret `"s"` expiring at instant 100. -/
def wParse : String → JWToken :=
  fun r => if r = "tok" then .signed "alice" 100 "s" else .malformed r

/-- A concrete unrevoked API key owned by `wAlice`. -/
def wKey : APIKey := ⟨1, "KH", 1, 0, false⟩

/-- A concrete store holding `wAlice` and `wKey`. -/
def wDBk : DB := ⟨[wAlice], [wKey], [], 2, 2, 1⟩

/-! ### Claims -/

/-- C6: a session token issued for a subject carries expiry = issuance time
plus TTL·60 seconds, with the configured TTL defaulting to 60 minutes;
decoding with the issuing secret at or before expiry returns the subject;
decoding strictly after expiry, under a different secret, or of a malformed
token returns `none` (every jose failure is caught — decode never throws). -/
theorem C6_session_token_roundtrip (secret sec2 sub raw : String)
    (ttl now checkTime : Int) :
    create_access_token secret ttl now sub = .signed sub (now + ttl * 60) secret ∧
    JWT_EXPIRE_MINUTES_default = 60 ∧
    (checkTime ≤ now + ttl * 60 →
      decode_access_token secret checkTime (create_access_token secret ttl now sub)
        = some sub) ∧
    (now + ttl * 60 < checkTime →
      decode_access_token secret checkTime (create_access_token secret ttl now sub)
        = none) ∧
    (sec2 ≠ secret →
      decode_access_token sec2 checkTime (create_access_token secret ttl now sub)
        = none) ∧
    decode_access_token secret checkTime (.malformed raw) = none := by
  refine ⟨rfl, rfl, ?_, ?_, ?_, rfl⟩
  · intro h
    have h2 : ¬ (now + ttl * 60 < checkTime) := not_lt.2 h
    simp [decode_access_token, create_access_token, h2]
  · intro h
    simp [decode_access_token, create_access_token, h]
  · intro h
    simp [decode_access_token, create_access_token, Ne.symm h]

/-- Witness for C6 at concrete inputs. -/
theorem C6_session_token_roundtrip_witness :
    decode_access_token ("s") 100 (create_access_token ("s") 60 0 ("alice"))
      = some ("alice") ∧
    decode_access_token ("s") 3601 (create_access_token ("s") 60 0 ("alice"))
      = none ∧
    decode_access_token ("k") 100 (create_access_token ("s") 60 0 ("alice"))
      = none :=
  ⟨(C6_session_token_roundtrip ("s") ("k") ("alice") ("r") 60 0 100).2.2.1
      (by decide),
   (C6_session_token_roundtrip ("s") ("k") ("alice") ("r") 60 0 3601).2.2.2.1
      (by decide),
   (C6_session_token_roundtrip ("s") ("k") ("alice") ("r") 60 0 100).2.2.2.2.1
      (by decide)⟩

/-- C4 counterexample: on the empty (hence unidentifiable) hash string the
claim "verify_password returns a boolean and never throws; on a malformed
hash it returns false" fails — `pwd_context.verify` raises
`UnknownHashError` and `verify_password` does not catch it, so no boolean
is returned at all. -/
theorem C4_counterexample :
    verify_password (fun _ _ => .ok false) ("pw") ("") = .error .unknownHash := rfl

/-- C4 (amended): `verify_password` returns the scheme handler's boolean
verdict exactly on hashes bearing the `$pbkdf2-sha256$` ident prefix; on
any hash no configured scheme identifies it raises `UnknownHashError`
uncaught, rather than returning false. -/
theorem C4_verify_password_malformed
    (checkDigest : String → String → Except PasslibErr Bool)
    (password hashed : String) :
    (passlibIdentify hashed = false →
      verify_password checkDigest password hashed = .error .unknownHash) ∧
    (passlibIdentify hashed = true →
      verify_password checkDigest password hashed = checkDigest password hashed) := by
  constructor <;> intro h <;> simp [verify_password, h]

/-- Witness for C4's amended claim at concrete inputs. -/
theorem C4_verify_password_malformed_witness :
    verify_password (fun _ _ => .ok false) ("x") ("not-a-hash")
      = .error .unknownHash ∧
    verify_password (fun _ _ => .ok false) ("x") ("$pbkdf2-sha256$y")
      = .ok false :=
  ⟨(C4_verify_password_malformed (fun _ _ => .ok false) ("x") ("not-a-hash")).1
      (by decide),
   (C4_verify_password_malformed (fun _ _ => .ok false) ("x") ("$pbkdf2-sha256$y")).2
      (by decide)⟩

/-- C5 (code bug, failing input): the Authorization header value
`"Bearer "` (correct scheme, trailing space, missing token part) passes the
`startswith("bearer ")` gate, and then `authorization.split()[1]` raises
`IndexError` — an unhandled exception surfacing as HTTP 500, not the
claimed Unauthenticated — on current-user and on all three API-key
operations alike. -/
theorem C5_bearer_blank_crashes :
    get_current_user ("s") 0 JWToken.malformed ⟨[], [], [], 1, 1, 1⟩
        (some ("Bearer ")) = .error .indexError ∧
    me ("s") 0 JWToken.malformed ⟨[], [], [], 1, 1, 1⟩
        (some ("Bearer ")) = .error .indexError ∧
    create_apikey ("s") 0 JWToken.malformed ("k") ⟨[], [], [], 1, 1, 1⟩
        (some ("Bearer ")) = (.error .indexError, ⟨[], [], [], 1, 1, 1⟩) ∧
    list_apikeys ("s") 0 JWToken.malformed ⟨[], [], [], 1, 1, 1⟩
        (some ("Bearer ")) = .error .indexError ∧
    revoke_apikey ("s") 0 JWToken.malformed 1 ⟨[], [], [], 1, 1, 1⟩
        (some ("Bearer ")) = (.error .indexError, ⟨[], [], [], 1, 1, 1⟩) :=
  ⟨rfl, rfl, rfl, rfl, rfl⟩

/-- C3: for every email accepted by the EmailStr validator, request-reset
returns the one fixed generic acknowledgement — for every store, so the
response cannot reveal whether the email exists — and never errors; the
store gains exactly one reset token when a user with that email exists and
is left untouched otherwise. -/
theorem C3_request_reset_no_enumeration (emailOk : String → Bool)
    (token_value : String) (resetMinutes now : Int) (db : DB)
    (req : PasswordResetRequest) (hv : emailOk req.email = true) :
    (request_reset emailOk token_value resetMinutes now db req).1 =
      .ok ⟨"If the email exists a reset link was sent"⟩ ∧
    (db.users.find? (fun u => u.email = req.email) = none →
      request_reset emailOk token_value resetMinutes now db req =
        (.ok ⟨"If the email exists a reset link was sent"⟩, db)) ∧
    (∀ user, db.users.find? (fun u => u.email = req.email) = some user →
      request_reset emailOk token_value resetMinutes now db req =
        (.ok ⟨"If the email exists a reset link was sent"⟩,
         { db with
           reset_tokens := db.reset_tokens ++
             [⟨db.next_reset_id, token_value, user.id,
               create_reset_expiry resetMinutes now, false, now⟩]
           next_reset_id := db.next_reset_id + 1 })) := by
  refine ⟨?_, ?_, ?_⟩
  · cases h : db.users.find? (fun u => u.email = req.email) <;>
      simp [request_reset, hv, h]
  · intro h
    simp [request_reset, hv, h]
  · intro user h
    simp [request_reset, hv, h]

/-- Witness for C3 at concrete inputs: known email (a token is persisted)
and unknown email (store untouched); both return the generic message. -/
theorem C3_request_reset_no_enumeration_witness :
    request_reset (fun _ => true) ("RT") 30 7 wDB ⟨"a@x.com"⟩ =
      (.ok ⟨"If the email exists a reset link was sent"⟩,
       { wDB with
         reset_tokens := wDB.reset_tokens ++
           [⟨wDB.next_reset_id, "RT", wAlice.id, create_reset_expiry 30 7, false, 7⟩]
         next_reset_id := wDB.next_reset_id + 1 }) ∧
    request_reset (fun _ => true) ("RT") 30 7 wDB ⟨"b@x.com"⟩ =
      (.ok ⟨"If the email exists a reset link was sent"⟩, wDB) :=
  ⟨(C3_request_reset_no_enumeration (fun _ => true) ("RT") 30 7 wDB ⟨"a@x.com"⟩
      (by decide)).2.2 wAlice (by decide),
   (C3_request_reset_no_enumeration (fun _ => true) ("RT") 30 7 wDB ⟨"b@x.com"⟩
      (by decide)).2.1 (by decide)⟩

/-- C10: a password shorter than 8 characters is rejected by registration
and by reset confirmation with a request-validation failure, identically
for every store, hash function and time — so before any store read, hash
computation, or state change, which stay untouched; login enforces no
minimum: it never fails with a validation error, and a password of any
length that the verifier accepts logs the user in. -/
theorem C10_min_password_length (emailOk : String → Bool)
    (hashPassword : String → String)
    (checkDigest : String → String → Except PasslibErr Bool)
    (secret : String) (expireMinutes now : Int) (db : DB)
    (user_in : UserCreate) (creq : PasswordResetConfirm) (lreq : LoginRequest)
    (u : User) :
    (user_in.password.length < 8 →
      register emailOk hashPassword now db user_in = (.error .validation, db)) ∧
    (creq.new_password.length < 8 →
      confirm_reset hashPassword now db creq = (.error .validation, db)) ∧
    (login checkDigest secret expireMinutes now db lreq).1 ≠ .error .validation ∧
    (db.users.find? (fun x => x.username = lreq.username) = some u →
      verify_password checkDigest lreq.password u.password_hash = .ok true →
      (login checkDigest secret expireMinutes now db lreq).1 =
        .ok ⟨create_access_token secret expireMinutes now u.username, "bearer",
             toUserOut u,
             (db.api_keys.filter (fun k => k.user_id = u.id && ! k.revoked)).map
               (fun k => toString k.id)⟩) := by
  refine ⟨?_, ?_, ?_, ?_⟩
  · intro h
    have h2 : ¬ (8 ≤ user_in.password.length) := by omega
    simp [register, validUserCreate, h2]
  · intro h
    have h2 : ¬ (8 ≤ creq.new_password.length) := by omega
    simp [confirm_reset, validPasswordResetConfirm, h2]
  · cases h1 : db.users.find? (fun x => x.username = lreq.username) with
    | none => simp [login, h1]
    | some user =>
      cases h2 : verify_password checkDigest lreq.password user.password_hash with
      | error e => simp [login, h1, h2]
      | ok b => cases b <;> simp [login, h1, h2]
  · intro h1 h2
    simp [login, h1, h2]

/-- Witness for C10 at concrete inputs: a 5-character password is rejected
by register and by confirm-reset; a 1-character password logs in when the
verifier accepts it. -/
theorem C10_min_password_length_witness :
    register (fun _ => true) (fun _ => "$pbkdf2-sha256$H2") 0 wDB
        ⟨"Bob", "b@x.com", "2 Way", "bob", "short"⟩ = (.error .validation, wDB) ∧
    confirm_reset (fun _ => "$pbkdf2-sha256$H2") 0 wDB ⟨"T", "short"⟩ =
      (.error .validation, wDB) ∧
    (login (fun _ _ => .ok true) ("s") 60 0 wDB ⟨"alice", "x"⟩).1 =
      .ok ⟨create_access_token ("s") 60 0 wAlice.username, "bearer", toUserOut wAlice,
           (wDB.api_keys.filter (fun k => k.user_id = wAlice.id && ! k.revoked)).map
             (fun k => toString k.id)⟩ :=
  ⟨(C10_min_password_length (fun _ => true) (fun _ => "$pbkdf2-sha256$H2")
      (fun _ _ => .ok true) ("s") 60 0 wDB
      ⟨"Bob", "b@x.com", "2 Way", "bob", "short"⟩ ⟨"T", "short"⟩ ⟨"alice", "x"⟩
      wAlice).1 (by decide),
   (C10_min_password_length (fun _ => true) (fun _ => "$pbkdf2-sha256$H2")
      (fun _ _ => .ok true) ("s") 60 0 wDB
      ⟨"Bob", "b@x.com", "2 Way", "bob", "short"⟩ ⟨"T", "short"⟩ ⟨"alice", "x"⟩
      wAlice).2.1 (by decide),
   (C10_min_password_length (fun _ => true) (fun _ => "$pbkdf2-sha256$H2")
      (fun _ _ => .ok true) ("s") 60 0 wDB
      ⟨"Bob", "b@x.com", "2 Way", "bob", "short"⟩ ⟨"T", "short"⟩ ⟨"alice", "x"⟩
      wAlice).2.2.2 (by decide) (by decide)⟩

/-- C1: a (validation-passing) confirm-reset request fails with the
`Invalid or expired token` error exactly when the token is absent from the
store, already used, or its expiry — a naive stored timestamp being read
as UTC — is strictly before the current instant (expiry equal to now is
accepted by the gate); the used-or-expired test is one disjunctive gate,
every such failure leaves the store unchanged, and the outcome is the same
as on the store with all expiries normalized to aware UTC. -/
theorem C1_confirm_reset_gate (hashPassword : String → String) (now : Int)
    (db : DB) (req : PasswordResetConfirm) (hv : 8 ≤ req.new_password.length) :
    ((confirm_reset hashPassword now db req).1 =
        .error (.http 400 "Invalid or expired token") ↔
      (match db.reset_tokens.find? (fun t => t.token = req.token) with
       | none => True
       | some t => t.used = true ∨ (normalizeUTC t.expires_at).instant < now)) ∧
    (∀ e, (confirm_reset hashPassword now db req).1 = .error e →
      (confirm_reset hashPassword now db req).2 = db) ∧
    (confirm_reset hashPassword now db req).1 =
      (confirm_reset hashPassword now (normResetTokens db) req).1 := by
  have hval : (! validPasswordResetConfirm req) = false := by
    simp [validPasswordResetConfirm, hv]
  have hnow : (nowUTC now).instant = now := by
    simp [nowUTC, PyDateTime.instant]
  have hfind2 : (normResetTokens db).reset_tokens.find? (fun t => t.token = req.token)
      = (db.reset_tokens.find? (fun t => t.token = req.token)).map normTok :=
    find?_map_comm normTok (fun t => decide (t.token = req.token)) (fun x => rfl)
      db.reset_tokens
  have husers : (normResetTokens db).users = db.users := rfl
  refine ⟨?_, fun e => confirm_reset_error_unchanged hashPassword now db req e, ?_⟩
  · cases hfind : db.reset_tokens.find? (fun t => t.token = req.token) with
    | none => simp [confirm_reset, hval, hfind]
    | some t =>
      by_cases hg : (t.used || dtLt (normalizeUTC t.expires_at) (nowUTC now)) = true
      · have hrhs : t.used = true ∨ (normalizeUTC t.expires_at).instant < now := by
          have hor : t.used = true ∨
              dtLt (normalizeUTC t.expires_at) (nowUTC now) = true := by
            simpa using hg
          rcases hor with h1 | h2
          · exact Or.inl h1
          · refine Or.inr ?_
            have h3 := of_decide_eq_true h2
            rwa [hnow] at h3
        have hres : (confirm_reset hashPassword now db req).1 =
            .error (.http 400 "Invalid or expired token") := by
          simp [confirm_reset, hval, hfind, hg]
        simp [hres, hfind, hrhs]
      · have hrhs : ¬ (t.used = true ∨ (normalizeUTC t.expires_at).instant < now) := by
          intro hc
          apply hg
          rcases hc with h1 | h2
          · simp [h1]
          · have h3 : dtLt (normalizeUTC t.expires_at) (nowUTC now) = true := by
              simp only [dtLt, hnow]
              exact decide_eq_true h2
            simp [h3]
        cases huser : db.users.find? (fun u => u.id = t.user_id) with
        | none =>
          have hres : (confirm_reset hashPassword now db req).1 =
              .error (.http 400 "User not found") := by
            simp [confirm_reset, hval, hfind, hg, huser]
          simp [hres, hfind, hrhs]
        | some u =>
          have hres : (confirm_reset hashPassword now db req).1 =
              .ok ⟨"Password reset successful"⟩ := by
            simp [confirm_reset, hval, hfind, hg, huser]
          simp [hres, hfind, hrhs]
  · cases hfind : db.reset_tokens.find? (fun t => t.token = req.token) with
    | none =>
      have hfind2n : (normResetTokens db).reset_tokens.find?
          (fun t => t.token = req.token) = none := by
        rw [hfind2, hfind]; rfl
      have hA : (confirm_reset hashPassword now db req).1 =
          .error (.http 400 "Invalid or expired token") := by
        simp [confirm_reset, hval, hfind]
      have hB : (confirm_reset hashPassword now (normResetTokens db) req).1 =
          .error (.http 400 "Invalid or expired token") := by
        simp [confirm_reset, hval, hfind2n]
      rw [hA, hB]
    | some t =>
      have hfind2s : (normResetTokens db).reset_tokens.find?
          (fun t => t.token = req.token) = some (normTok t) := by
        rw [hfind2, hfind]; rfl
      have hgeq : ((normTok t).used ||
          dtLt (normalizeUTC (normTok t).expires_at) (nowUTC now))
          = (t.used || dtLt (normalizeUTC t.expires_at) (nowUTC now)) := by
        simp [normTok, normalizeUTC_idem]
      by_cases hg : (t.used || dtLt (normalizeUTC t.expires_at) (nowUTC now)) = true
      · have hA : (confirm_reset hashPassword now db req).1 =
            .error (.http 400 "Invalid or expired token") := by
          simp [confirm_reset, hval, hfind, hg]
        have hB : (confirm_reset hashPassword now (normResetTokens db) req).1 =
            .error (.http 400 "Invalid or expired token") := by
          simp [confirm_reset, hval, hfind2s, hgeq, hg]
        rw [hA, hB]
      · have hg2 : (t.used || dtLt (normalizeUTC t.expires_at) (nowUTC now)) = false :=
          Bool.not_eq_true _ ▸ eq_false_of_ne_true hg
        have hor2 : ¬ (t.used = true ∨
            dtLt (normalizeUTC t.expires_at) (nowUTC now) = true) := by
          simpa using hg
        cases huser : db.users.find? (fun u => u.id = t.user_id) with
        | none =>
          have hA : (confirm_reset hashPassword now db req).1 =
              .error (.http 400 "User not found") := by
            simp [confirm_reset, hval, hfind, hg2, huser]
          have hB : (confirm_reset hashPassword now (normResetTokens db) req).1 =
              .error (.http 400 "User not found") := by
            simp [confirm_reset, hval, hfind2s, normTok, normalizeUTC_idem,
              hor2, husers, huser]
          rw [hA, hB]
        | some u =>
          have hA : (confirm_reset hashPassword now db req).1 =
              .ok ⟨"Password reset successful"⟩ := by
            simp [confirm_reset, hval, hfind, hg2, huser]
          have hB : (confirm_reset hashPassword now (normResetTokens db) req).1 =
              .ok ⟨"Password reset successful"⟩ := by
            simp [confirm_reset, hval, hfind2s, normTok, normalizeUTC_idem,
              hor2, husers, huser]
          rw [hA, hB]

/-- Witness for C1: a stored naive-timestamp token with expiry instant 50
confirmed at instant 50 — equal to now, so the gate accepts it — on the
concrete store; the same outcome holds on the normalized store. -/
theorem C1_confirm_reset_gate_witness :
    ((confirm_reset (fun _ => "$pbkdf2-sha256$H2") 50 wDBr ⟨"T", "newpass12"⟩).1 =
        .error (.http 400 "Invalid or expired token") ↔
      (match wDBr.reset_tokens.find? (fun t => t.token = "T") with
       | none => True
       | some t => t.used = true ∨ (normalizeUTC t.expires_at).instant < 50)) ∧
    (∀ e, (confirm_reset (fun _ => "$pbkdf2-sha256$H2") 50 wDBr ⟨"T", "newpass12"⟩).1 =
        .error e →
      (confirm_reset (fun _ => "$pbkdf2-sha256$H2") 50 wDBr ⟨"T", "newpass12"⟩).2 = wDBr) ∧
    (confirm_reset (fun _ => "$pbkdf2-sha256$H2") 50 wDBr ⟨"T", "newpass12"⟩).1 =
      (confirm_reset (fun _ => "$pbkdf2-sha256$H2") 50 (normResetTokens wDBr)
        ⟨"T", "newpass12"⟩).1 :=
  C1_confirm_reset_gate (fun _ => "$pbkdf2-sha256$H2") 50 wDBr ⟨"T", "newpass12"⟩
    (by decide)

/-- C2: on a stored, unused, unexpired token whose owning user exists,
confirm-reset returns success and one store in which the owner's password
hash is the hash of the new password and the token's used flag is true —
both updates in the single committed store; a second confirmation with the
same token value then fails with the invalid-or-expired error for every
later time and hash function, and every failing branch leaves the store
exactly as it was. -/
theorem C2_confirm_reset_success (hashPassword : String → String) (now : Int)
    (db : DB) (req : PasswordResetConfirm) (t : PasswordResetToken) (u : User)
    (hv : 8 ≤ req.new_password.length)
    (hfind : db.reset_tokens.find? (fun x => x.token = req.token) = some t)
    (hused : t.used = false)
    (hexp : ¬ (normalizeUTC t.expires_at).instant < now)
    (huser : db.users.find? (fun x => x.id = t.user_id) = some u) :
    confirm_reset hashPassword now db req =
      (.ok ⟨"Password reset successful"⟩,
       { db with
         users := setPasswordFirst db.users t.user_id (hashPassword req.new_password)
         reset_tokens := setUsedFirst db.reset_tokens req.token }) ∧
    (setPasswordFirst db.users t.user_id (hashPassword req.new_password)).find?
        (fun x => x.id = t.user_id) =
      some { u with password_hash := hashPassword req.new_password } ∧
    (setUsedFirst db.reset_tokens req.token).find? (fun x => x.token = req.token) =
      some { t with used := true } ∧
    (∀ hp2 now2,
      (confirm_reset hp2 now2 (confirm_reset hashPassword now db req).2 req).1 =
        .error (.http 400 "Invalid or expired token")) ∧
    (∀ db2 req2 e hp2 now2, (confirm_reset hp2 now2 db2 req2).1 = .error e →
      (confirm_reset hp2 now2 db2 req2).2 = db2) := by
  have hval : (! validPasswordResetConfirm req) = false := by
    simp [validPasswordResetConfirm, hv]
  have hnow : (nowUTC now).instant = now := by
    simp [nowUTC, PyDateTime.instant]
  have hdtf : dtLt (normalizeUTC t.expires_at) (nowUTC now) = false := by
    simp only [dtLt, hnow]
    exact decide_eq_false hexp
  have hgate : (t.used || dtLt (normalizeUTC t.expires_at) (nowUTC now)) = false := by
    simp [hused, hdtf]
  have hmain : confirm_reset hashPassword now db req =
      (.ok ⟨"Password reset successful"⟩,
       { db with
         users := setPasswordFirst db.users t.user_id (hashPassword req.new_password)
         reset_tokens := setUsedFirst db.reset_tokens req.token }) := by
    simp [confirm_reset, hval, hfind, hgate, huser]
  have hused2 : (setUsedFirst db.reset_tokens req.token).find?
      (fun x => x.token = req.token) = some { t with used := true } :=
    setUsedFirst_find? db.reset_tokens req.token t hfind
  refine ⟨hmain,
    setPasswordFirst_find? db.users t.user_id (hashPassword req.new_password) u huser,
    hused2, ?_,
    fun db2 req2 e hp2 now2 => confirm_reset_error_unchanged hp2 now2 db2 req2 e⟩
  intro hp2 now2
  rw [hmain]
  simp [confirm_reset, hval, hused2]

/-- Witness for C2: the naive token expiring at instant 50, confirmed at
instant 50 with a fresh hash; the password hash and used flag land in the
one returned store, and an immediate retry fails. -/
theorem C2_confirm_reset_success_witness :
    confirm_reset (fun _ => "$pbkdf2-sha256$H2") 50 wDBr ⟨"T", "newpass12"⟩ =
      (.ok ⟨"Password reset successful"⟩,
       { wDBr with
         users := setPasswordFirst wDBr.users wToken.user_id
           ((fun _ => "$pbkdf2-sha256$H2") "newpass12")
         reset_tokens := setUsedFirst wDBr.reset_tokens "T" }) ∧
    (setPasswordFirst wDBr.users wToken.user_id
        ((fun _ => "$pbkdf2-sha256$H2") "newpass12")).find?
        (fun x => x.id = wToken.user_id) =
      some { wAlice with password_hash := "$pbkdf2-sha256$H2" } ∧
    (setUsedFirst wDBr.reset_tokens "T").find? (fun x => x.token = "T") =
      some { wToken with used := true } ∧
    (∀ hp2 now2,
      (confirm_reset hp2 now2
          (confirm_reset (fun _ => "$pbkdf2-sha256$H2") 50 wDBr ⟨"T", "newpass12"⟩).2
          ⟨"T", "newpass12"⟩).1 =
        .error (.http 400 "Invalid or expired token")) ∧
    (∀ db2 req2 e hp2 now2, (confirm_reset hp2 now2 db2 req2).1 = .error e →
      (confirm_reset hp2 now2 db2 req2).2 = db2) :=
  C2_confirm_reset_success (fun _ => "$pbkdf2-sha256$H2") 50 wDBr ⟨"T", "newpass12"⟩
    wToken wAlice (by decide) (by decide) (by decide) (by decide) (by decide)

/-- C7: a successful API-key issuance returns the raw value once, and the
only derivative of it persisted is `hash_api_key raw` — the SHA-256 of the
raw key's UTF-8 bytes, hex-encoded — stored as the new key's hash; listing
returns, for every store and caller, exactly the id, creation timestamp
and revoked flag of each key the resolved user owns, revoked ones
included, and never any raw value (none is stored). -/
theorem C7_apikey_hash_and_listing (secret : String) (now : Int)
    (parse : String → JWToken) (raw_key : String) (db : DB)
    (authorization : Option String) (user : User)
    (hauth : get_current_user secret now parse db authorization = .ok user) :
    create_apikey secret now parse raw_key db authorization =
      (.ok ⟨db.next_key_id, raw_key⟩,
       { db with
         api_keys := db.api_keys ++
           [⟨db.next_key_id, hash_api_key raw_key, user.id, now, false⟩]
         next_key_id := db.next_key_id + 1 }) ∧
    hash_api_key raw_key = hexdigest (sha256 (utf8Bytes raw_key)) ∧
    (∀ db2 auth2,
      list_apikeys secret now parse db2 auth2 =
        (get_current_user secret now parse db2 auth2).map (fun u =>
          (db2.api_keys.filter (fun k => k.user_id = u.id)).map
            (fun k => (⟨k.id, k.created_at, k.revoked⟩ : APIKeyOut)))) := by
  refine ⟨?_, rfl, fun db2 auth2 => rfl⟩
  simp [create_apikey, hauth]

/-- Witness for C7: issuing a key for alice on the concrete store. -/
theorem C7_apikey_hash_and_listing_witness :
    create_apikey ("s") 0 wParse ("rawkey") wDB (some ("Bearer tok")) =
      (.ok ⟨wDB.next_key_id, "rawkey"⟩,
       { wDB with
         api_keys := wDB.api_keys ++
           [⟨wDB.next_key_id, hash_api_key ("rawkey"), wAlice.id, 0, false⟩]
         next_key_id := wDB.next_key_id + 1 }) :=
  (C7_apikey_hash_and_listing ("s") 0 wParse ("rawkey") wDB (some ("Bearer tok"))
    wAlice (by decide)).1

/-- C8: with the caller resolved, revoke fails with the 404 not-found error
exactly when no key with that id owned by the caller exists (foreign-owned
or absent ids alike); on a match it sets revoked to true and succeeds, and
a second revocation of the same id succeeds again leaving the key revoked
and the store unchanged (idempotent); no operation ever resets a revoked
flag to false. -/
theorem C8_revoke_apikey (secret : String) (now : Int) (parse : String → JWToken)
    (key_id : Nat) (db : DB) (authorization : Option String) (user : User)
    (hauth : get_current_user secret now parse db authorization = .ok user) :
    ((revoke_apikey secret now parse key_id db authorization).1 =
        .error (.http 404 "API key not found") ↔
      db.api_keys.find? (fun k => k.id = key_id && k.user_id = user.id) = none) ∧
    (∀ k, db.api_keys.find? (fun x => x.id = key_id && x.user_id = user.id) = some k →
      revoke_apikey secret now parse key_id db authorization =
        (.ok ⟨"API key revoked"⟩,
         { db with api_keys := setRevokedFirst db.api_keys key_id user.id }) ∧
      (setRevokedFirst db.api_keys key_id user.id).find?
          (fun x => x.id = key_id && x.user_id = user.id) =
        some { k with revoked := true } ∧
      revoke_apikey secret now parse key_id
          { db with api_keys := setRevokedFirst db.api_keys key_id user.id }
          authorization =
        (.ok ⟨"API key revoked"⟩,
         { db with api_keys := setRevokedFirst db.api_keys key_id user.id })) ∧
    revokedMonotone db.api_keys
      (revoke_apikey secret now parse key_id db authorization).2.api_keys ∧
    (∀ emailOk hp inp, revokedMonotone db.api_keys
      (register emailOk hp now db inp).2.api_keys) ∧
    (∀ cd em lreq, revokedMonotone db.api_keys
      (login cd secret em now db lreq).2.api_keys) ∧
    (∀ raw auth2, revokedMonotone db.api_keys
      (create_apikey secret now parse raw db auth2).2.api_keys) ∧
    (∀ emailOk tv rm rreq, revokedMonotone db.api_keys
      (request_reset emailOk tv rm now db rreq).2.api_keys) ∧
    (∀ hp creq, revokedMonotone db.api_keys
      (confirm_reset hp now db creq).2.api_keys) := by
  refine ⟨?_, ?_, ?_, ?_, ?_, ?_, ?_, ?_⟩
  · cases hf : db.api_keys.find? (fun k => k.id = key_id && k.user_id = user.id) with
    | none => simp [revoke_apikey, hauth, hf]
    | some k => simp [revoke_apikey, hauth, hf]
  · intro k hk
    have hauth2 : get_current_user secret now parse
        { db with api_keys := setRevokedFirst db.api_keys key_id user.id }
        authorization = .ok user :=
      (get_current_user_congr_users secret now parse _ db authorization rfl).trans hauth
    have hk2 := setRevokedFirst_find? db.api_keys key_id user.id k hk
    refine ⟨by simp [revoke_apikey, hauth, hk], hk2, ?_⟩
    simp [revoke_apikey, hauth2, hk2, setRevokedFirst_idem]
  · cases hf : db.api_keys.find? (fun k => k.id = key_id && k.user_id = user.id) with
    | none =>
      simp only [revoke_apikey, hauth, hf]
      exact revokedMonotone_refl db.api_keys
    | some k =>
      simp only [revoke_apikey, hauth, hf]
      exact revokedMonotone_setRevokedFirst db.api_keys key_id user.id
  · intro emailOk hp inp
    rw [register_apikeys]
    exact revokedMonotone_refl db.api_keys
  · intro cd em lreq
    rw [login_state]
    exact revokedMonotone_refl db.api_keys
  · intro raw auth2
    cases hauth3 : get_current_user secret now parse db auth2 with
    | error e =>
      simp only [create_apikey, hauth3]
      exact revokedMonotone_refl db.api_keys
    | ok u2 =>
      simp only [create_apikey, hauth3]
      exact revokedMonotone_append db.api_keys _
  · intro emailOk tv rm rreq
    rw [request_reset_apikeys]
    exact revokedMonotone_refl db.api_keys
  · intro hp creq
    rw [confirm_reset_apikeys]
    exact revokedMonotone_refl db.api_keys

/-- Witness for C8: revoking alice's key id 1 on the concrete store, then
revoking it again — the second call succeeds and changes nothing. -/
theorem C8_revoke_apikey_witness :
    revoke_apikey ("s") 0 wParse 1 wDBk (some ("Bearer tok")) =
      (.ok ⟨"API key revoked"⟩,
       { wDBk with api_keys := setRevokedFirst wDBk.api_keys 1 wAlice.id }) ∧
    (setRevokedFirst wDBk.api_keys 1 wAlice.id).find?
        (fun x => x.id = 1 && x.user_id = wAlice.id) =
      some { wKey with revoked := true } ∧
    revoke_apikey ("s") 0 wParse 1
        { wDBk with api_keys := setRevokedFirst wDBk.api_keys 1 wAlice.id }
        (some ("Bearer tok")) =
      (.ok ⟨"API key revoked"⟩,
       { wDBk with api_keys := setRevokedFirst wDBk.api_keys 1 wAlice.id }) :=
  (C8_revoke_apikey ("s") 0 wParse 1 wDBk (some ("Bearer tok")) wAlice
    (by decide)).2.1 wKey (by decide)

/-- C9: no handler reads `is_active`: rewriting any user's flag to any
value commutes with every exposed operation — current-user resolution
returns the same user (up to the rewritten flag), `me`, login and key
listing return identical outputs, key issuance and revocation, registration,
reset request and reset confirmation produce identical outcomes and the
same store up to the rewritten flag — so a deactivated user logs in,
resolves, and manages API keys exactly like an active one. -/
theorem C9_is_active_never_read (secret : String) (now : Int)
    (parse : String → JWToken) (db : DB) (uid : Nat) (b : Bool)
    (a : Option String) (cd : String → String → Except PasslibErr Bool)
    (em : Int) (lreq : LoginRequest) (raw : String) (key_id : Nat)
    (emailOk : String → Bool) (hp : String → String) (inp : UserCreate)
    (tv : String) (rm : Int) (rreq : PasswordResetRequest)
    (creq : PasswordResetConfirm) :
    get_current_user secret now parse (setActive db uid b) a =
      (get_current_user secret now parse db a).map (setUserActive uid b) ∧
    me secret now parse (setActive db uid b) a = me secret now parse db a ∧
    login cd secret em now (setActive db uid b) lreq =
      ((login cd secret em now db lreq).1, setActive db uid b) ∧
    create_apikey secret now parse raw (setActive db uid b) a =
      ((create_apikey secret now parse raw db a).1,
       setActive (create_apikey secret now parse raw db a).2 uid b) ∧
    list_apikeys secret now parse (setActive db uid b) a =
      list_apikeys secret now parse db a ∧
    revoke_apikey secret now parse key_id (setActive db uid b) a =
      ((revoke_apikey secret now parse key_id db a).1,
       setActive (revoke_apikey secret now parse key_id db a).2 uid b) ∧
    (register emailOk hp now (setActive db uid b) inp).1 =
      (register emailOk hp now db inp).1 ∧
    request_reset emailOk tv rm now (setActive db uid b) rreq =
      ((request_reset emailOk tv rm now db rreq).1,
       setActive (request_reset emailOk tv rm now db rreq).2 uid b) ∧
    confirm_reset hp now (setActive db uid b) creq =
      ((confirm_reset hp now db creq).1,
       setActive (confirm_reset hp now db creq).2 uid b) :=
  ⟨get_current_user_setActive secret now parse db uid b a,
   me_setActive secret now parse db uid b a,
   login_setActive cd secret em now db uid b lreq,
   create_apikey_setActive secret now parse raw db uid b a,
   list_apikeys_setActive secret now parse db uid b a,
   revoke_apikey_setActive secret now parse key_id db uid b a,
   register_setActive_out emailOk hp now db uid b inp,
   request_reset_setActive emailOk tv rm now db uid b rreq,
   confirm_reset_setActive hp now db uid b creq⟩

end Auth
